import Mathlib

/-!
Shallow embedding of the PAI job-to-workload translation layer
(`job.js` of the framework-controller launcher model, plus the user model
`rest-server/src/models/v2/user.js`).

Strings are modelled as `List Char` (`Str`).  JavaScript `Buffer.from(s)`
produces the UTF-8 bytes of `s` (modelled byte-for-byte by `utf8Bytes`);
`buf.toString('ascii')` masks every byte to 7 bits (modelled by
`asciiDecode`).  `undefined`/`null`-able JavaScript values are modelled with
`Option`; thrown errors with `Except`.  Timestamps are modelled as the epoch
milliseconds that `new Date(t).getTime()` yields (date parsing belongs to an
external collaborator).  HTTP transport is external: each client operation is
modelled as a function of the response it receives.
-/

namespace Pai

abbrev Str := List Char

/-- JS `p` is a leading substring of `s` (`s.startsWith(p)`). -/
def strStarts : Str → Str → Bool
  | [], _ => true
  | _ :: _, [] => false
  | p :: ps, c :: cs => p = c && strStarts ps cs

/-- JS `s.includes(c)` for a single character. -/
def strHas (s : Str) (c : Char) : Bool :=
  s.any (fun x => x = c)

/-- A character the framework controller accepts in names: `[a-z0-9]`. -/
def legalChar (c : Char) : Bool :=
  ('a' ≤ c && c ≤ 'z') || ('0' ≤ c && c ≤ '9')

/-- `convertName`: lower-case, then strip every character outside `[a-z0-9]`
(JS `name.toLowerCase().replace(/[^a-z0-9]/g, '')`). -/
def convertName (name : Str) : Str :=
  (name.map Char.toLower).filter legalChar

/-- Lowercase hexadecimal digit for `n < 16`, as `Buffer.toString('hex')`
emits. -/
def hexDigitChar (n : Nat) : Char :=
  if n < 10 then Char.ofNat (48 + n) else Char.ofNat (87 + n)

/-- One byte as two lowercase hex digits. -/
def byteToHex (b : Nat) : Str :=
  [hexDigitChar (b / 16), hexDigitChar (b % 16)]

/-- UTF-8 bytes of one character, as `Buffer.from(string)` produces them. -/
def utf8Bytes (c : Char) : List Nat :=
  let n := c.toNat
  if n < 128 then [n]
  else if n < 2048 then [192 + n / 64, 128 + n % 64]
  else if n < 65536 then [224 + n / 4096, 128 + n / 64 % 64, 128 + n % 64]
  else [240 + n / 262144, 128 + n / 4096 % 64, 128 + n / 64 % 64, 128 + n % 64]

/-- UTF-8 bytes of a string (`Buffer.from(name)`). -/
def strBytes (s : Str) : List Nat :=
  s.flatMap utf8Bytes

/-- `buf.toString('hex')`: every byte as two lowercase hex digits. -/
def hexEncode (bs : List Nat) : Str :=
  bs.flatMap byteToHex

/-- Numeric value of a hex digit (`0-9`, `a-f`, `A-F`), `none` otherwise. -/
def hexCharVal (c : Char) : Option Nat :=
  if '0' ≤ c ∧ c ≤ '9' then some (c.toNat - 48)
  else if 'a' ≤ c ∧ c ≤ 'f' then some (c.toNat - 87)
  else if 'A' ≤ c ∧ c ≤ 'F' then some (c.toNat - 55)
  else none

/-- `Buffer.from(s, 'hex')`: parse hex-digit pairs, truncating at the first
malformed pair or dangling digit, as Node does. -/
def hexDecode : Str → List Nat
  | a :: b :: rest =>
    match hexCharVal a, hexCharVal b with
    | some x, some y => (16 * x + y) :: hexDecode rest
    | _, _ => []
  | _ => []

/-- `buf.toString('ascii')`: each byte masked to 7 bits becomes one
character. -/
def asciiDecode (bs : List Nat) : Str :=
  bs.map (fun b => Char.ofNat (b % 128))

/-- A character the JS regex metacharacter `.` (without the `s` flag) does
NOT match: the line terminators LF, CR, U+2028 and U+2029. -/
def isLineTerminator (c : Char) : Bool :=
  c = '\n' || c = '\r' || c = Char.ofNat 8232 || c = Char.ofNat 8233

/-- JS `s.split(/~(.+)/)` as used by the codec.  The regex matches at the
first `~` that is followed by at least one non-line-terminator character
(a `~` followed by a line terminator or the end of the string is skipped
and scanning continues); the capture `(.+)` is the maximal run of
non-line-terminator characters after that `~`.  The result models
`[parts[0], parts[1]]`: the part before the matched separator, and the
capture — `undefined` when the regex never matches, in which case the
first component is the whole string. -/
def splitTilde : Str → Str × Option Str
  | [] => ([], none)
  | c :: rest =>
    let cap := rest.takeWhile (fun x => !(isLineTerminator x))
    if c = '~' ∧ cap ≠ [] then ([], some cap)
    else
      let p := splitTilde rest
      (c :: p.1, p.2)

/-- `encodeName`: a name that the system itself synthesized (leading
`unknown`) or that carries no `~` separator takes the lossy
`convertName` path after JS `name.replace(/^unknown/g, '')` drops one
leading `unknown`; every other name is hex-encoded with a literal `hex`
marker in front. -/
def encodeName (name : Str) : Str :=
  if strStarts ("unknown".data) name || !(strHas name '~') then
    convertName (if strStarts ("unknown".data) name then name.drop 7 else name)
  else
    ("hex".data) ++ hexEncode (strBytes name)

/-- `decodeName`: a `hex`-marked name is stripped of the marker
(JS `name.replace(/^hex/g, '')`), hex-decoded, read back as ASCII and split
with `/~(.+)/`, keeping the job-name capture (which is `undefined` when the
decoded string has no separator followed by a non-line-terminator
character, and which stops at the first line terminator); an unmarked name
is returned unchanged. -/
def decodeName (name : Str) : Option Str :=
  if strStarts ("hex".data) name then
    (splitTilde (asciiDecode (hexDecode (name.drop 3)))).2
  else
    some name

/-- `convertState`: map a framework-controller state plus a completion exit
code (absent while no completion status exists) to the five-value job state
vocabulary. -/
def convertState (state : Str) (exitCode : Option Int) : Str :=
  if state = ("AttemptCreationPending".data) ∨
     state = ("AttemptCreationRequested".data) ∨
     state = ("AttemptPreparing".data) then
    "WAITING".data
  else if state = ("AttemptRunning".data) then
    "RUNNING".data
  else if state = ("AttemptDeletionPending".data) ∨
     state = ("AttemptDeletionRequested".data) ∨
     state = ("AttemptDeleting".data) ∨
     state = ("AttemptCompleted".data) then
    "WAITING".data
  else if state = ("Completed".data) then
    if exitCode = some 0 then "SUCCEEDED".data else "FAILED".data
  else
    "UNKNOWN".data

/-- The controller states `convertState` recognizes with a non-default
arm. -/
def recognizedStates : List Str :=
  ["AttemptCreationPending".data, "AttemptCreationRequested".data,
   "AttemptPreparing".data, "AttemptRunning".data,
   "AttemptDeletionPending".data, "AttemptDeletionRequested".data,
   "AttemptDeleting".data, "AttemptCompleted".data, "Completed".data]

/-- `completionStatus` of a framework or task attempt (`type.name` is
flattened into `typeName`). -/
structure CompletionStatus where
  code : Int
  diagnostics : Str
  typeName : Str
deriving DecidableEq

/-- Labels the launcher writes on a framework (`jobName` can be `undefined`
when the submitted name had no separator match). -/
structure FrameworkLabels where
  jobName : Option Str
  userName : Str
  virtualCluster : Str
deriving DecidableEq

/-- Metadata annotations of a framework (only `config` is ever read). -/
structure FrameworkAnnotations where
  config : Option Str
deriving DecidableEq

structure FrameworkMetadata where
  name : Str
  labels : Option FrameworkLabels
  annotations : Option FrameworkAnnotations
deriving DecidableEq

structure RetryPolicyStatus where
  totalRetriedCount : Int
  accountableRetriedCount : Int
deriving DecidableEq

structure TaskAttemptStatus where
  podName : Str
  podHostIP : Str
  completionStatus : Option CompletionStatus
deriving DecidableEq

structure TaskStatus where
  index : Int
  state : Str
  attemptStatus : TaskAttemptStatus
deriving DecidableEq

structure TaskRoleStatus where
  name : Str
  taskStatuses : List TaskStatus
deriving DecidableEq

structure AttemptStatus where
  instanceUID : Str
  completionStatus : Option CompletionStatus
  taskRoleStatuses : List TaskRoleStatus
deriving DecidableEq

/-- `framework.status`.  `startTime`/`completionTime` are modelled as the
epoch milliseconds `new Date(t).getTime()` yields for the controller's
timestamp strings. -/
structure FrameworkStatus where
  state : Str
  attemptStatus : AttemptStatus
  retryPolicyStatus : RetryPolicyStatus
  startTime : Int
  completionTime : Int
deriving DecidableEq

/-- The part of `framework.spec` the read paths consult. -/
structure FrameworkSpecView where
  executionType : Str
deriving DecidableEq

/-- A framework object as returned by the controller. -/
structure Framework where
  metadata : FrameworkMetadata
  spec : FrameworkSpecView
  status : FrameworkStatus
deriving DecidableEq

structure RetryDetails where
  user : Int
  platform : Int
  resource : Int
deriving DecidableEq

/-- Summary view produced by `convertFrameworkSummary` (`name` is `Option`
because `decodeName` can yield `undefined`). -/
structure FrameworkSummary where
  name : Option Str
  username : Str
  state : Str
  subState : Str
  executionType : Str
  retries : Int
  retryDetails : RetryDetails
  createdTime : Int
  completedTime : Int
  appExitCode : Option Int
  virtualCluster : Str
  totalGpuNumber : Int
  totalTaskNumber : Int
  totalTaskRoleNumber : Int
deriving DecidableEq

/-- `convertFrameworkSummary`. -/
def convertFrameworkSummary (framework : Framework) : FrameworkSummary :=
  let completionStatus := framework.status.attemptStatus.completionStatus
  { name := decodeName framework.metadata.name
    username :=
      match framework.metadata.labels with
      | some l => l.userName
      | none => "unknown".data
    state := convertState framework.status.state (completionStatus.map (·.code))
    subState := framework.status.state
    executionType := framework.spec.executionType.map Char.toUpper
    retries := framework.status.retryPolicyStatus.totalRetriedCount
    retryDetails :=
      { user := framework.status.retryPolicyStatus.accountableRetriedCount
        platform := framework.status.retryPolicyStatus.totalRetriedCount -
          framework.status.retryPolicyStatus.accountableRetriedCount
        resource := 0 }
    createdTime := framework.status.startTime
    completedTime := framework.status.completionTime
    appExitCode := completionStatus.map (·.code)
    virtualCluster :=
      match framework.metadata.labels with
      | some l => l.virtualCluster
      | none => "unknown".data
    totalGpuNumber := 0
    totalTaskNumber := framework.status.attemptStatus.taskRoleStatuses.foldl
      (fun num statuses => num + statuses.taskStatuses.length) 0
    totalTaskRoleNumber := framework.status.attemptStatus.taskRoleStatuses.length }

/-- Per-task detail view (`containerPorts`, a constant empty object in the
source, is omitted). -/
structure TaskDetail where
  taskIndex : Int
  taskState : Str
  containerId : Str
  containerIp : Str
  containerGpus : Int
  containerLog : Str
  containerExitCode : Option Int
deriving DecidableEq

/-- `convertTaskDetail`. -/
def convertTaskDetail (taskStatus : TaskStatus) : TaskDetail :=
  let completionStatus := taskStatus.attemptStatus.completionStatus
  { taskIndex := taskStatus.index
    taskState := convertState taskStatus.state (completionStatus.map (·.code))
    containerId := taskStatus.attemptStatus.podName
    containerIp := taskStatus.attemptStatus.podHostIP
    containerGpus := 0
    containerLog := []
    containerExitCode := completionStatus.map (·.code) }

/-- `jobStatus` part of the detail view (constant-`null`/empty fields of the
source — `appExitSpec`, `appExitMessages`, the two trigger-task fields and
`appTrackingUrl` — are omitted). -/
structure JobStatusDetail where
  username : Str
  state : Str
  subState : Str
  executionType : Str
  retries : Int
  retryDetails : RetryDetails
  createdTime : Int
  completedTime : Int
  appId : Str
  appProgress : Int
  appLaunchedTime : Int
  appCompletedTime : Int
  appExitCode : Option Int
  appExitDiagnostics : Option Str
  appExitTriggerMessage : Option Str
  appExitType : Option Str
  virtualCluster : Str
deriving DecidableEq

structure TaskRoleDetail where
  name : Str
  taskStatuses : List TaskDetail
deriving DecidableEq

/-- Detail view produced by `convertFrameworkDetail`; the source's
name-keyed `taskRoles` object is modelled as an association list. -/
structure FrameworkDetail where
  name : Option Str
  jobStatus : JobStatusDetail
  taskRoles : List (Str × TaskRoleDetail)
deriving DecidableEq

/-- `convertFrameworkDetail`. -/
def convertFrameworkDetail (framework : Framework) : FrameworkDetail :=
  let completionStatus := framework.status.attemptStatus.completionStatus
  { name := decodeName framework.metadata.name
    jobStatus :=
      { username :=
          match framework.metadata.labels with
          | some l => l.userName
          | none => "unknown".data
        state := convertState framework.status.state (completionStatus.map (·.code))
        subState := framework.status.state
        executionType := framework.spec.executionType.map Char.toUpper
        retries := framework.status.retryPolicyStatus.totalRetriedCount
        retryDetails :=
          { user := framework.status.retryPolicyStatus.accountableRetriedCount
            platform := framework.status.retryPolicyStatus.totalRetriedCount -
              framework.status.retryPolicyStatus.accountableRetriedCount
            resource := 0 }
        createdTime := framework.status.startTime
        completedTime := framework.status.completionTime
        appId := framework.status.attemptStatus.instanceUID
        appProgress := if completionStatus.isSome then 1 else 0
        appLaunchedTime := framework.status.startTime
        appCompletedTime := framework.status.completionTime
        appExitCode := completionStatus.map (·.code)
        appExitDiagnostics := completionStatus.map (·.diagnostics)
        appExitTriggerMessage := completionStatus.map (·.diagnostics)
        appExitType := completionStatus.map (·.typeName)
        virtualCluster :=
          match framework.metadata.labels with
          | some l => l.virtualCluster
          | none => "unknown".data }
    taskRoles := framework.status.attemptStatus.taskRoleStatuses.map
      (fun trs =>
        (trs.name,
         { name := trs.name
           taskStatuses := trs.taskStatuses.map convertTaskDetail })) }

/-- Caller-supplied completion policy of one task role (each field may be
absent). -/
structure TaskRoleCompletion where
  minFailedInstances : Option Int
  minSucceededInstances : Option Int
deriving DecidableEq

/-- The part of one task role's configuration the retry/completion logic
reads (entrypoint, image and resources feed only the pod template, which is
built from constants and external launcher configuration). -/
structure TaskRoleConfig where
  instances : Option Int
  completion : Option TaskRoleCompletion
deriving DecidableEq

/-- The part of a job configuration the builder's policy logic reads; the
source's name-keyed `taskRoles` object is modelled as an association
list. -/
structure JobConfig where
  jobRetryCount : Option Int
  taskRoles : List (Str × TaskRoleConfig)
deriving DecidableEq

/-- JS `x || d` for a possibly-absent number: `undefined` and `0` are falsy
and yield the default. -/
def jsNumOr (x : Option Int) (d : Int) : Int :=
  match x with
  | none => d
  | some n => if n = 0 then d else n

structure RetryPolicy where
  fancyRetryPolicy : Bool
  maxRetryCount : Int
deriving DecidableEq

structure CompletionPolicy where
  minFailedTaskCount : Int
  minSucceededTaskCount : Int
deriving DecidableEq

/-- The policy-bearing fields of one generated framework task role.  The pod
template (`task.pod`) — containers, volumes, environment injection and the
hived-scheduler extension — is omitted: it is assembled from constants,
external launcher configuration, and random ports, and the hived branch does
not touch the fields below. -/
structure FrameworkTaskRole where
  name : Str
  taskNumber : Int
  taskRetryPolicy : RetryPolicy
  frameworkAttemptCompletionPolicy : CompletionPolicy
deriving DecidableEq

/-- `generateTaskRole` (the `labels` argument of the source feeds only the
omitted pod template). -/
def generateTaskRole (taskRole : Str) (trc : TaskRoleConfig) : FrameworkTaskRole :=
  { name := convertName taskRole
    taskNumber := jsNumOr trc.instances 1
    taskRetryPolicy := { fancyRetryPolicy := true, maxRetryCount := 0 }
    frameworkAttemptCompletionPolicy :=
      match trc.completion with
      | some comp =>
        { minFailedTaskCount :=
            match comp.minFailedInstances with
            | some v => v
            | none => 1
          minSucceededTaskCount :=
            match comp.minSucceededInstances with
            | some v => v
            | none => -1 }
      | none =>
        { minFailedTaskCount := 1
          minSucceededTaskCount := -1 } }

/-- Generated framework metadata (the annotations hold the raw submitted
configuration text verbatim). -/
structure GenFrameworkMetadata where
  name : Str
  labels : FrameworkLabels
  annotations : FrameworkAnnotations
deriving DecidableEq

structure GenFrameworkSpec where
  executionType : Str
  retryPolicy : RetryPolicy
  taskRoles : List FrameworkTaskRole
deriving DecidableEq

/-- Generated framework description (`apiVersion`, taken verbatim from
external launcher configuration, is omitted). -/
structure FrameworkDescription where
  kind : Str
  metadata : GenFrameworkMetadata
  spec : GenFrameworkSpec
deriving DecidableEq

/-- `generateFrameworkDescription` (environment-variable injection into the
omitted pod templates, including the two random ports, is not modelled). -/
def generateFrameworkDescription (frameworkName : Str) (virtualCluster : Str)
    (config : JobConfig) (rawConfig : Str) : FrameworkDescription :=
  let split := splitTilde frameworkName
  { kind := "Framework".data
    metadata :=
      { name := encodeName frameworkName
        labels :=
          { jobName := split.2
            userName := split.1
            virtualCluster := virtualCluster }
        annotations := { config := some rawConfig } }
    spec :=
      { executionType := "Start".data
        retryPolicy :=
          { fancyRetryPolicy := decide (config.jobRetryCount ≠ some (-2))
            maxRetryCount := jsNumOr config.jobRetryCount 0 }
        taskRoles := config.taskRoles.map (fun p => generateTaskRole p.1 p.2) } }

/-- The typed errors `createError` produces in this module ('Not Found'
maps to status 404; `unknownError` keeps the upstream status). -/
inductive PaiError where
  | noJobError (message : Str)
  | noJobConfigError (message : Str)
  | noJobSshInfoError (message : Str)
  | unknownError (code : Nat) (message : Str)
deriving DecidableEq

/-- A controller response to the list request (`message` is
`response.data.message`, consulted only on the error path). -/
structure ListResponse where
  status : Nat
  items : List Framework
  message : Str
deriving DecidableEq

/-- Descending-by-`createdTime` comparison, the order the JS comparator
`(a, b) => b.createdTime - a.createdTime` sorts into. -/
def createdAfter (a b : FrameworkSummary) : Prop :=
  b.createdTime ≤ a.createdTime

instance : DecidableRel createdAfter :=
  fun a b => inferInstanceAs (Decidable (b.createdTime ≤ a.createdTime))

instance : IsTotal FrameworkSummary createdAfter :=
  ⟨fun a b => Int.le_total b.createdTime a.createdTime⟩

instance : IsTrans FrameworkSummary createdAfter :=
  ⟨fun _ _ _ hab hbc => le_trans hbc hab⟩

/-- `list()`, as a function of the received response: on HTTP 200 convert
every item and sort by creation time descending (`Array.prototype.sort` is
stable, modelled by a stable insertion sort); otherwise raise the generic
upstream error. -/
def list (resp : ListResponse) : Except PaiError (List FrameworkSummary) :=
  if resp.status = 200 then
    Except.ok (List.insertionSort createdAfter (resp.items.map convertFrameworkSummary))
  else
    Except.error (PaiError.unknownError resp.status resp.message)

/-- A controller response to a single-framework request. -/
structure GetResponse where
  status : Nat
  data : Framework
  message : Str
deriving DecidableEq

/-- `get(frameworkName)`, as a function of the received response (the
request itself addresses `encodeName frameworkName`): 200 converts the
body, 404 raises `NoJobError` with the caller's logical name, anything else
raises the generic upstream error. -/
def get (frameworkName : Str) (resp : GetResponse) : Except PaiError FrameworkDetail :=
  if resp.status = 200 then
    Except.ok (convertFrameworkDetail resp.data)
  else if resp.status = 404 then
    Except.error (PaiError.noJobError
      (("Job ".data) ++ frameworkName ++ (" is not found.".data)))
  else
    Except.error (PaiError.unknownError resp.status resp.message)

/-- JS template `` `${executionType.charAt(0)}${executionType.slice(1).toLowerCase()}` ``:
the first character is kept as-is and the rest is lower-cased. -/
def jsCapSlice (s : Str) : Str :=
  match s with
  | [] => []
  | c :: rest => c :: rest.map Char.toLower

/-- Body of the merge patch `execute` sends: a single `spec.executionType`
field and nothing else. -/
structure MergePatchSpec where
  executionType : Str
deriving DecidableEq

structure MergePatchBody where
  spec : MergePatchSpec
deriving DecidableEq

/-- The request `execute(frameworkName, executionType)` issues. -/
structure ExecuteRequest where
  method : Str
  name : Str
  contentType : Str
  data : MergePatchBody
deriving DecidableEq

/-- The single merge-patch request `execute` issues (the response handling —
non-200 raises the generic upstream error — is `executeOutcome`). -/
def executeRequest (frameworkName : Str) (executionType : Str) : ExecuteRequest :=
  { method := "patch".data
    name := encodeName frameworkName
    contentType := "application/merge-patch+json".data
    data := { spec := { executionType := jsCapSlice executionType } } }

/-- `execute`'s handling of the received response status. -/
def executeOutcome (resp : GetResponse) : Except PaiError Unit :=
  if resp.status ≠ 200 then
    Except.error (PaiError.unknownError resp.status resp.message)
  else
    Except.ok ()

/-- `getConfig(frameworkName)`, as a function of the received response.  On
HTTP 200 the source tests
`response.data.metadata.annotations && response.data.metadata.annotations.config`
by JS truthiness, so an absent annotations object, an absent `config` key
and an empty `config` string all raise `NoJobConfigError`; a present
non-empty text is returned through `yaml.safeLoad` (modelled by the
`safeLoad` parameter, an external collaborator).  HTTP 404 raises
`NoJobError`; anything else the generic upstream error. -/
def getConfig {α : Type} (safeLoad : Str → α) (frameworkName : Str)
    (resp : GetResponse) : Except PaiError α :=
  if resp.status = 200 then
    match resp.data.metadata.annotations with
    | some anns =>
      match anns.config with
      | some cfg =>
        if cfg = [] then
          Except.error (PaiError.noJobConfigError
            (("Config of job ".data) ++ frameworkName ++ (" is not found.".data)))
        else
          Except.ok (safeLoad cfg)
      | none =>
        Except.error (PaiError.noJobConfigError
          (("Config of job ".data) ++ frameworkName ++ (" is not found.".data)))
    | none =>
      Except.error (PaiError.noJobConfigError
        (("Config of job ".data) ++ frameworkName ++ (" is not found.".data)))
  else if resp.status = 404 then
    Except.error (PaiError.noJobError
      (("Job ".data) ++ frameworkName ++ (" is not found.".data)))
  else
    Except.error (PaiError.unknownError resp.status resp.message)

/-- `getSshInfo` always fails. -/
def getSshInfo (frameworkName : Str) : Except PaiError Unit :=
  Except.error (PaiError.noJobSshInfoError
    (("SSH info of job ".data) ++ frameworkName ++ (" is not found.".data)))

/-- An error raised by the secret-backed user storage engine
(`user.js`). -/
structure UserStoreError where
  status : Nat
  message : Str
deriving DecidableEq

/-- Outcome of the idempotent upsert: the user already existed (read
succeeded, nothing written) or was created. -/
inductive UpsertOutcome where
  | existed
  | created
deriving DecidableEq

/-- `createUserIfNonExistent(username, userValue)`, as a function of the
outcomes the storage engine gives the two calls it can make: the result of
`getUser` and — only consulted when the read failed with status 404 — the
result of `createUser`. -/
def createUserIfNonExistent {U : Type} (readResult : Except UserStoreError U)
    (createResult : Except UserStoreError Unit) : Except UserStoreError UpsertOutcome :=
  match readResult with
  | Except.ok _ => Except.ok UpsertOutcome.existed
  | Except.error e =>
    if e.status = 404 then
      match createResult with
      | Except.ok _ => Except.ok UpsertOutcome.created
      | Except.error e2 => Except.error e2
    else
      Except.error e

/-- Capitalization as the specification words it: first letter upper-cased,
rest lower-cased.  Defined only to compare against what `executeRequest`
actually sends. -/
def specCapitalizeFirst (s : Str) : Str :=
  match s with
  | [] => []
  | c :: rest => Char.toUpper c :: rest.map Char.toLower

/-- A minimal framework object with a given start time, for concrete
instantiations. -/
def sampleFramework (t : Int) : Framework :=
  { metadata := { name := "test".data, labels := none, annotations := none }
    spec := { executionType := "Start".data }
    status :=
      { state := "AttemptRunning".data
        attemptStatus :=
          { instanceUID := [], completionStatus := none, taskRoleStatuses := [] }
        retryPolicyStatus := { totalRetriedCount := 0, accountableRetriedCount := 0 }
        startTime := t
        completionTime := 0 } }

/-- A successful single-framework response whose `config` annotation is
present but holds the empty string. -/
def sampleEmptyConfigResponse : GetResponse :=
  { status := 200
    data :=
      { sampleFramework 0 with
        metadata :=
          { name := "test".data
            labels := none
            annotations := some { config := some [] } } }
    message := [] }

/-! ## Helper lemmas -/

theorem strHas_of_mem {s : Str} {c : Char} (h : c ∈ s) : strHas s c = true := by
  simp only [strHas, List.any_eq_true, decide_eq_true_eq]
  exact ⟨c, h, rfl⟩

theorem strStarts_append (p l : Str) : strStarts p (p ++ l) = true := by
  induction p with
  | nil => rfl
  | cons c ps ih => simp [strStarts, ih]

theorem hexCharVal_hexDigitChar {n : Nat} (h : n < 16) :
    hexCharVal (hexDigitChar n) = some n := by
  interval_cases n <;> decide

theorem hexDecode_hexEncode (bs : List Nat) (h : ∀ b ∈ bs, b < 256) :
    hexDecode (hexEncode bs) = bs := by
  induction bs with
  | nil => rfl
  | cons b bs ih =>
    have hb : b < 256 := h b (List.mem_cons_self b bs)
    have h16a : b / 16 < 16 := by omega
    have h16b : b % 16 < 16 := by omega
    have henc : hexEncode (b :: bs) =
        hexDigitChar (b / 16) :: hexDigitChar (b % 16) :: hexEncode bs := rfl
    rw [henc]
    simp only [hexDecode, hexCharVal_hexDigitChar h16a, hexCharVal_hexDigitChar h16b]
    rw [ih (fun x hx => h x (List.mem_cons_of_mem _ hx))]
    congr 1
    omega

theorem utf8Bytes_ascii {c : Char} (h : c.toNat < 128) : utf8Bytes c = [c.toNat] := by
  simp [utf8Bytes, h]

theorem asciiDecode_strBytes {s : Str} (h : ∀ c ∈ s, c.toNat < 128) :
    asciiDecode (strBytes s) = s := by
  induction s with
  | nil => rfl
  | cons c cs ih =>
    have hc := h c (List.mem_cons_self c cs)
    have hsb : strBytes (c :: cs) = c.toNat :: strBytes cs := by
      simp [strBytes, utf8Bytes_ascii hc]
    rw [hsb]
    show Char.ofNat (c.toNat % 128) :: asciiDecode (strBytes cs) = c :: cs
    rw [Nat.mod_eq_of_lt hc, Char.ofNat_toNat,
      ih (fun x hx => h x (List.mem_cons_of_mem _ hx))]

theorem strBytes_lt_256 {s : Str} (h : ∀ c ∈ s, c.toNat < 128) :
    ∀ b ∈ strBytes s, b < 256 := by
  intro b hb
  simp only [strBytes, List.mem_flatMap] at hb
  obtain ⟨c, hc, hbc⟩ := hb
  rw [utf8Bytes_ascii (h c hc)] at hbc
  simp only [List.mem_singleton] at hbc
  have := h c hc
  omega

theorem splitTilde_append {u j : Str} (hu : '~' ∉ u) (hj : j ≠ [])
    (hterm : ∀ c ∈ j, isLineTerminator c = false) :
    splitTilde (u ++ '~' :: j) = (u, some j) := by
  have hcap : j.takeWhile (fun x => !(isLineTerminator x)) = j :=
    List.takeWhile_eq_self_iff.mpr (fun x hx => by simp [hterm x hx])
  induction u with
  | nil => simp [splitTilde, hcap, hj]
  | cons c cs ih =>
    have hc : ¬(c = '~') := fun h => hu (h ▸ List.mem_cons_self c cs)
    have hcs : '~' ∉ cs := fun h => hu (List.mem_cons_of_mem _ h)
    simp [splitTilde, hc, ih hcs]

theorem char_toNat_lt (c : Char) : c.toNat < 1114112 := by
  have h : c.toNat < 55296 ∨ (57343 < c.toNat ∧ c.toNat < 1114112) := c.valid
  omega

theorem utf8Bytes_lt_256 {c : Char} {b : Nat} (h : b ∈ utf8Bytes c) : b < 256 := by
  have hc := char_toNat_lt c
  by_cases h1 : c.toNat < 128
  · rw [utf8Bytes_ascii h1] at h
    simp only [List.mem_singleton] at h
    omega
  · by_cases h2 : c.toNat < 2048
    · simp only [utf8Bytes, h1, h2, if_true, if_false, ite_true, ite_false,
        List.mem_cons, List.mem_singleton, List.not_mem_nil, or_false] at h
      rcases h with h | h <;> omega
    · by_cases h3 : c.toNat < 65536
      · simp only [utf8Bytes, h1, h2, h3, if_true, if_false, ite_true, ite_false,
          List.mem_cons, List.mem_singleton, List.not_mem_nil, or_false] at h
        rcases h with h | h | h <;> omega
      · simp only [utf8Bytes, h1, h2, h3, if_true, if_false, ite_true, ite_false,
          List.mem_cons, List.mem_singleton, List.not_mem_nil, or_false] at h
        rcases h with h | h | h | h <;> omega

theorem hexDigitChar_legal {n : Nat} (h : n < 16) :
    legalChar (hexDigitChar n) = true := by
  interval_cases n <;> decide

/-! ## Claim theorems -/

/-- C1: for a job identifier of the form `username~jobName` — the username
free of the separator, the job name non-empty and free of line terminators
(the decoder's `/~(.+)/` capture stops at those; valid identifiers contain
none), the identifier not a system-synthesized `unknown…` name, characters
in the ASCII range — decoding the encoded controller name recovers the
job-name part exactly; the job name may itself contain separators, only
the first one being significant. -/
theorem decodeName_encodeName_roundtrip (u j : Str)
    (hascii : ∀ c ∈ u ++ '~' :: j, c.toNat < 128)
    (hu : '~' ∉ u) (hj : j ≠ [])
    (hterm : ∀ c ∈ j, isLineTerminator c = false)
    (hunk : strStarts ("unknown".data) (u ++ '~' :: j) = false) :
    decodeName (encodeName (u ++ '~' :: j)) = some j := by
  have hhas : strHas (u ++ '~' :: j) '~' = true :=
    strHas_of_mem (by simp)
  have henc : encodeName (u ++ '~' :: j) =
      ("hex".data) ++ hexEncode (strBytes (u ++ '~' :: j)) := by
    unfold encodeName
    rw [hunk, hhas]
    rfl
  rw [henc]
  unfold decodeName
  rw [strStarts_append]
  have hdrop : (("hex".data) ++ hexEncode (strBytes (u ++ '~' :: j))).drop 3 =
      hexEncode (strBytes (u ++ '~' :: j)) := rfl
  simp only [if_true, ite_true, hdrop]
  rw [hexDecode_hexEncode _ (strBytes_lt_256 hascii), asciiDecode_strBytes hascii,
    splitTilde_append hu hj hterm]

/-- C1 witness: the round trip at the concrete identifier
`user1~job~a`, whose job-name part `job~a` itself contains the
separator. -/
theorem decodeName_encodeName_roundtrip_witness :
    (∀ c ∈ ("user1".data) ++ '~' :: ("job~a".data), c.toNat < 128) ∧
    (∀ c ∈ ("job~a".data), isLineTerminator c = false) ∧
    strStarts ("unknown".data) (("user1".data) ++ '~' :: ("job~a".data)) = false ∧
    decodeName (encodeName (("user1".data) ++ '~' :: ("job~a".data))) =
      some ("job~a".data) :=
  ⟨by decide, by decide, by decide,
   decodeName_encodeName_roundtrip ("user1".data) ("job~a".data)
     (by decide) (by decide) (by decide) (by decide) (by decide)⟩

/-- C10: every name `encodeName` produces — lossy path or `hex` marker path —
consists only of characters in `[a-z0-9]`, hence is legal for the
controller. -/
theorem encodeName_legal (s : Str) (c : Char) (hc : c ∈ encodeName s) :
    legalChar c = true := by
  unfold encodeName convertName at hc
  split at hc
  · exact List.of_mem_filter hc
  · rcases List.mem_append.mp hc with h | h
    · rw [show ("hex".data) = ['h', 'e', 'x'] from rfl] at h
      simp only [List.mem_cons, List.not_mem_nil, or_false] at h
      rcases h with rfl | rfl | rfl <;> decide
    · simp only [hexEncode, List.mem_flatMap] at h
      obtain ⟨b, hb, hcb⟩ := h
      have hb256 : b < 256 := by
        simp only [strBytes, List.mem_flatMap] at hb
        obtain ⟨ch, _, hbch⟩ := hb
        exact utf8Bytes_lt_256 hbch
      simp only [byteToHex, List.mem_cons, List.not_mem_nil, or_false] at hcb
      rcases hcb with rfl | rfl
      · exact hexDigitChar_legal (by omega)
      · exact hexDigitChar_legal (by omega)

/-- C10 witness: the first character of the encoding of `alice~job` (the
`hex` marker path) is in `[a-z0-9]`. -/
theorem encodeName_legal_witness :
    ('h' ∈ encodeName ("alice~job".data)) ∧ legalChar 'h' = true :=
  ⟨by decide, encodeName_legal ("alice~job".data) 'h' (by decide)⟩

/-- C2: `convertState` is total — it always returns one of the five job
states — and matches the reference table: `Completed` with exit code 0 is
`SUCCEEDED`, `Completed` with any other exit code (including an absent one)
is `FAILED`, `AttemptRunning` is `RUNNING` and `AttemptCreationPending` is
`WAITING` for every exit code, and every state outside the recognized list
yields `UNKNOWN`. -/
theorem convertState_total_table :
    (∀ (s : Str) (c : Option Int),
       convertState s c = "WAITING".data ∨ convertState s c = "RUNNING".data ∨
       convertState s c = "SUCCEEDED".data ∨ convertState s c = "FAILED".data ∨
       convertState s c = "UNKNOWN".data) ∧
    convertState ("Completed".data) (some 0) = "SUCCEEDED".data ∧
    (∀ c : Option Int, c ≠ some 0 →
       convertState ("Completed".data) c = "FAILED".data) ∧
    (∀ c : Option Int, convertState ("AttemptRunning".data) c = "RUNNING".data) ∧
    (∀ c : Option Int,
       convertState ("AttemptCreationPending".data) c = "WAITING".data) ∧
    (∀ (s : Str) (c : Option Int), s ∉ recognizedStates →
       convertState s c = "UNKNOWN".data) := by
  refine ⟨?_, by decide, ?_, ?_, ?_, ?_⟩
  · intro s c
    unfold convertState
    split_ifs <;> simp
  · intro c hc
    unfold convertState
    rw [if_neg (by decide), if_neg (by decide), if_neg (by decide),
      if_pos (by decide), if_neg hc]
  · intro c
    unfold convertState
    rw [if_neg (by decide), if_pos (by decide)]
  · intro c
    unfold convertState
    rw [if_pos (by decide)]
  · intro s c hs
    simp only [recognizedStates, List.mem_cons, List.not_mem_nil, or_false,
      not_or] at hs
    obtain ⟨h1, h2, h3, h4, h5, h6, h7, h8, h9⟩ := hs
    unfold convertState
    rw [if_neg (by tauto), if_neg h4, if_neg (by tauto), if_neg h9]

/-- C2 witness: the table at concrete inputs — `Completed` with exit code 1
is `FAILED`, and the unrecognized state `Foo` is `UNKNOWN`. -/
theorem convertState_total_table_witness :
    ((some 1 : Option Int) ≠ some 0) ∧
    convertState ("Completed".data) (some 1) = "FAILED".data ∧
    (("Foo".data) ∉ recognizedStates) ∧
    convertState ("Foo".data) none = "UNKNOWN".data :=
  ⟨by decide, convertState_total_table.2.2.1 (some 1) (by decide),
   by decide, convertState_total_table.2.2.2.2.2 ("Foo".data) none (by decide)⟩

/-- C3: the job-level retry policy of the built framework description has
`fancyRetryPolicy` (smart retry) false exactly when `jobRetryCount` is the
sentinel `-2` — true for every other value including 0 and absent — and
`maxRetryCount` equal to `jobRetryCount` with default 0 when absent. -/
theorem generateFrameworkDescription_retryPolicy (frameworkName virtualCluster : Str)
    (config : JobConfig) (rawConfig : Str) :
    ((generateFrameworkDescription frameworkName virtualCluster config
        rawConfig).spec.retryPolicy.fancyRetryPolicy = false ↔
      config.jobRetryCount = some (-2)) ∧
    (generateFrameworkDescription frameworkName virtualCluster config
        rawConfig).spec.retryPolicy.maxRetryCount = config.jobRetryCount.getD 0 := by
  constructor
  · simp [generateFrameworkDescription]
  · cases h : config.jobRetryCount with
    | none => simp [generateFrameworkDescription, jsNumOr, h]
    | some n =>
      simp only [generateFrameworkDescription, jsNumOr, h, Option.getD_some]
      by_cases hn : n = 0 <;> simp [hn]

/-- C4: a task role whose configuration has no `completion` key gets the
completion policy `{minFailedTaskCount := 1, minSucceededTaskCount := -1}`;
when a completion object is given, its `minFailedInstances` and
`minSucceededInstances` are used, each missing field falling back to the
same defaults. -/
theorem generateTaskRole_completionPolicy (taskRole : Str) (trc : TaskRoleConfig) :
    (trc.completion = none →
      (generateTaskRole taskRole trc).frameworkAttemptCompletionPolicy =
        { minFailedTaskCount := 1, minSucceededTaskCount := -1 }) ∧
    (∀ comp, trc.completion = some comp →
      (generateTaskRole taskRole trc).frameworkAttemptCompletionPolicy =
        { minFailedTaskCount := comp.minFailedInstances.getD 1,
          minSucceededTaskCount := comp.minSucceededInstances.getD (-1) }) := by
  constructor
  · intro h
    simp [generateTaskRole, h]
  · intro comp h
    simp only [generateTaskRole, h]
    cases hf : comp.minFailedInstances <;> cases hs : comp.minSucceededInstances <;>
      simp [hf, hs]

/-- C4 witness: a task role with three instances and no `completion` key
yields the default fail-fast completion policy. -/
theorem generateTaskRole_completionPolicy_witness :
    (({ instances := some 3, completion := none } : TaskRoleConfig).completion
        = none) ∧
    (generateTaskRole ("worker".data)
        { instances := some 3, completion := none }).frameworkAttemptCompletionPolicy =
      { minFailedTaskCount := 1, minSucceededTaskCount := -1 } :=
  ⟨rfl, (generateTaskRole_completionPolicy ("worker".data)
    { instances := some 3, completion := none }).1 rfl⟩

/-- C5: on a successful (HTTP 200) controller response, `list` returns the
converted summaries sorted by `createdTime` descending — every earlier
element's creation time is at least every later one's — and for three
workloads with creation times T1 < T2 < T3 the result is exactly
[T3, T2, T1]. -/
theorem list_sorted_desc :
    (∀ (resp : ListResponse) (l : List FrameworkSummary),
       resp.status = 200 → list resp = Except.ok l → List.Sorted createdAfter l) ∧
    (∀ (msg : Str) (f1 f2 f3 : Framework),
       f1.status.startTime < f2.status.startTime →
       f2.status.startTime < f3.status.startTime →
       list { status := 200, items := [f1, f2, f3], message := msg } =
         Except.ok [convertFrameworkSummary f3, convertFrameworkSummary f2,
                    convertFrameworkSummary f1]) := by
  constructor
  · intro resp l h200 hok
    unfold list at hok
    rw [if_pos h200] at hok
    cases hok
    exact List.sorted_insertionSort createdAfter _
  · intro msg f1 f2 f3 h12 h23
    have hc23 : ¬ createdAfter (convertFrameworkSummary f2) (convertFrameworkSummary f3) :=
      not_le.mpr h23
    have hc13 : ¬ createdAfter (convertFrameworkSummary f1) (convertFrameworkSummary f3) :=
      not_le.mpr (lt_trans h12 h23)
    have hc12 : ¬ createdAfter (convertFrameworkSummary f1) (convertFrameworkSummary f2) :=
      not_le.mpr h12
    unfold list
    rw [if_pos rfl]
    simp only [List.map_cons, List.map_nil, List.insertionSort, List.orderedInsert,
      if_neg hc23, if_neg hc13, if_neg hc12]

/-- C5 witness: three concrete workloads with creation times 1 < 2 < 3 come
back in the order [3, 2, 1]. -/
theorem list_sorted_desc_witness :
    list { status := 200,
           items := [sampleFramework 1, sampleFramework 2, sampleFramework 3],
           message := [] } =
      Except.ok [convertFrameworkSummary (sampleFramework 3),
                 convertFrameworkSummary (sampleFramework 2),
                 convertFrameworkSummary (sampleFramework 1)] :=
  list_sorted_desc.2 [] (sampleFramework 1) (sampleFramework 2) (sampleFramework 3)
    (by decide) (by decide)

/-- C6: when the controller answers `get(frameworkName)` with HTTP 404, the
raised `NoJobError` message carries the logical job name the caller passed —
not the hex-encoded controller-internal name — and any other non-200
response raises the generic upstream error with the upstream status code
and message body. -/
theorem get_notFound_spec (frameworkName : Str) (resp : GetResponse) :
    (resp.status = 404 →
       get frameworkName resp =
         Except.error (PaiError.noJobError
           (("Job ".data) ++ frameworkName ++ (" is not found.".data)))) ∧
    (resp.status ≠ 200 → resp.status ≠ 404 →
       get frameworkName resp =
         Except.error (PaiError.unknownError resp.status resp.message)) := by
  constructor
  · intro h404
    unfold get
    rw [if_neg (by omega), if_pos h404]
  · intro h200 h404
    unfold get
    rw [if_neg h200, if_neg h404]

/-- C6 witness: a 404 response for the logical name `alice~job1` raises
`NoJobError` whose message embeds `alice~job1` itself. -/
theorem get_notFound_spec_witness :
    get ("alice~job1".data) { status := 404, data := sampleFramework 0, message := [] } =
      Except.error (PaiError.noJobError
        (("Job ".data) ++ ("alice~job1".data) ++ (" is not found.".data))) :=
  (get_notFound_spec ("alice~job1".data)
    { status := 404, data := sampleFramework 0, message := [] }).1 rfl

/-- C7 counterexample: a successful response whose `config` annotation is
present but holds the empty string.  The claim predicts
`getConfig` returns the parse of that stored text (here, with the identity
parse, `Except.ok []`); the source tests the annotation by JS truthiness,
so it raises `NoJobConfigError` instead. -/
theorem getConfig_present_empty_counterexample :
    sampleEmptyConfigResponse.data.metadata.annotations =
      some { config := some [] } ∧
    getConfig (fun s => s) ("j".data) sampleEmptyConfigResponse =
      Except.error (PaiError.noJobConfigError
        (("Config of job ".data) ++ ("j".data) ++ (" is not found.".data))) ∧
    getConfig (fun s => s) ("j".data) sampleEmptyConfigResponse ≠
      Except.ok [] := by
  refine ⟨rfl, rfl, fun h => ?_⟩
  have h2 : (Except.error (PaiError.noJobConfigError
      (("Config of job ".data) ++ ("j".data) ++ (" is not found.".data))) :
      Except PaiError Str) = Except.ok [] := h
  exact Except.noConfusion h2

/-- C7 (amended: a present config annotation must also be non-empty, since
the source tests it by JS truthiness): on a successful response, a present
non-empty `config` annotation is returned through the parse exactly; an
absent annotations object, an absent `config` key or an empty `config`
string raise `NoJobConfigError`; HTTP 404 raises the distinct `NoJobError`;
the two error kinds never coincide. -/
theorem getConfig_two_notFound_spec {α : Type} (safeLoad : Str → α)
    (frameworkName : Str) (resp : GetResponse) :
    (∀ anns cfg, resp.status = 200 →
       resp.data.metadata.annotations = some anns → anns.config = some cfg →
       cfg ≠ [] →
       getConfig safeLoad frameworkName resp = Except.ok (safeLoad cfg)) ∧
    (resp.status = 200 →
       (resp.data.metadata.annotations = none ∨
        (∃ anns, resp.data.metadata.annotations = some anns ∧
           (anns.config = none ∨ anns.config = some []))) →
       getConfig safeLoad frameworkName resp =
         Except.error (PaiError.noJobConfigError
           (("Config of job ".data) ++ frameworkName ++ (" is not found.".data)))) ∧
    (resp.status = 404 →
       getConfig safeLoad frameworkName resp =
         Except.error (PaiError.noJobError
           (("Job ".data) ++ frameworkName ++ (" is not found.".data)))) ∧
    (∀ m1 m2, PaiError.noJobConfigError m1 ≠ PaiError.noJobError m2) := by
  refine ⟨?_, ?_, ?_, ?_⟩
  · intro anns cfg h200 hanns hcfg hne
    simp only [getConfig, h200, hanns, hcfg, if_neg hne, reduceIte]
  · intro h200 habs
    rcases habs with h | ⟨anns, hanns, h | h⟩
    · simp only [getConfig, h200, h, reduceIte]
    · simp only [getConfig, h200, hanns, h, reduceIte]
    · simp only [getConfig, h200, hanns, h, reduceIte]
  · intro h404
    simp only [getConfig, h404, reduceIte]
    rw [if_neg (show ¬(404 : Nat) = 200 from by decide)]
  · intro m1 m2
    exact fun h => PaiError.noConfusion h

/-- C7 witness: a present non-empty annotation text is returned through the
identity parse, and a 404 response raises the distinct `NoJobError`. -/
theorem getConfig_two_notFound_spec_witness :
    getConfig (fun s => s) ("j".data)
      { sampleEmptyConfigResponse with
        data :=
          { sampleFramework 0 with
            metadata :=
              { name := "test".data
                labels := none
                annotations := some { config := some ("a: b".data) } } } } =
      Except.ok ("a: b".data) ∧
    getConfig (fun s => s) ("j".data)
      { sampleEmptyConfigResponse with status := 404 } =
      Except.error (PaiError.noJobError
        (("Job ".data) ++ ("j".data) ++ (" is not found.".data))) :=
  ⟨(getConfig_two_notFound_spec (fun s => s) ("j".data) _).1
      { config := some ("a: b".data) } ("a: b".data) rfl rfl rfl (by decide),
   (getConfig_two_notFound_spec (fun s => s) ("j".data) _).2.2.1 rfl⟩

/-- C8 counterexample: for the input `stop` the value sent is `stop` itself
— the source keeps the first character as-is (`charAt(0)`) and only
lower-cases the remainder — while the claim's capitalization would send
`Stop`. -/
theorem executeRequest_lowercase_counterexample :
    (executeRequest [] ("stop".data)).data.spec.executionType = "stop".data ∧
    specCapitalizeFirst ("stop".data) = "Stop".data ∧
    ("stop".data : Str) ≠ "Stop".data := by
  refine ⟨rfl, rfl, ?_⟩
  decide

/-- C8 (amended: the first character is preserved unchanged rather than
capitalized): `execute` issues a single merge-patch whose body contains only
the `spec.executionType` field, whose value is the input with its first
character kept as-is and all remaining characters lower-cased — so the
upper-case `STOP` is sent as `Stop`, never `STOP` — against the
hex-encoded name, with merge-patch content type. -/
theorem executeRequest_shape (frameworkName executionType : Str) :
    (executeRequest frameworkName executionType).data =
      { spec := { executionType :=
          executionType.take 1 ++ (executionType.drop 1).map Char.toLower } } ∧
    (executeRequest frameworkName executionType).data.spec.executionType =
      jsCapSlice executionType ∧
    (executeRequest frameworkName ("STOP".data)).data.spec.executionType =
      "Stop".data ∧
    (executeRequest frameworkName executionType).method = "patch".data ∧
    (executeRequest frameworkName executionType).contentType =
      "application/merge-patch+json".data ∧
    (executeRequest frameworkName executionType).name = encodeName frameworkName := by
  refine ⟨?_, rfl, rfl, rfl, rfl, rfl⟩
  cases executionType with
  | nil => rfl
  | cons c rest => rfl

/-- C9: the idempotent upsert first reads the user; a read failure with the
storage engine's 404 signal triggers the create, any other read failure is
re-raised unchanged with no create performed (the outcome does not depend
on the create result), and a successful read creates and modifies
nothing. -/
theorem createUserIfNonExistent_spec {U : Type} (readResult : Except UserStoreError U)
    (createResult c1 c2 : Except UserStoreError Unit) :
    (∀ u, readResult = Except.ok u →
       createUserIfNonExistent readResult createResult =
         Except.ok UpsertOutcome.existed ∧
       createUserIfNonExistent readResult c1 = createUserIfNonExistent readResult c2) ∧
    (∀ e, readResult = Except.error e → e.status = 404 →
       createUserIfNonExistent readResult (Except.ok ()) =
         Except.ok UpsertOutcome.created) ∧
    (∀ e, readResult = Except.error e → e.status ≠ 404 →
       createUserIfNonExistent readResult createResult = Except.error e ∧
       createUserIfNonExistent readResult c1 = createUserIfNonExistent readResult c2) := by
  refine ⟨?_, ?_, ?_⟩
  · intro u hr
    subst hr
    exact ⟨rfl, rfl⟩
  · intro e hr h404
    subst hr
    simp only [createUserIfNonExistent, h404, reduceIte]
  · intro e hr h404
    subst hr
    simp only [createUserIfNonExistent, if_neg h404]
    exact ⟨trivial, trivial⟩

/-- C9 witness: a read failing with status 404 leads to a successful create;
a read failing with status 500 is re-raised unchanged. -/
theorem createUserIfNonExistent_spec_witness :
    createUserIfNonExistent (Except.error { status := 404, message := [] } :
        Except UserStoreError Unit) (Except.ok ()) =
      Except.ok UpsertOutcome.created ∧
    createUserIfNonExistent (Except.error { status := 500, message := [] } :
        Except UserStoreError Unit) (Except.ok ()) =
      Except.error { status := 500, message := [] } :=
  ⟨(createUserIfNonExistent_spec (Except.error { status := 404, message := [] })
      (Except.ok ()) (Except.ok ()) (Except.ok ())).2.1
      { status := 404, message := [] } rfl rfl,
   ((createUserIfNonExistent_spec (Except.error { status := 500, message := [] })
      (Except.ok ()) (Except.ok ()) (Except.ok ())).2.2
      { status := 500, message := [] } rfl (by decide)).1⟩

end Pai
